import Mathlib

/-!
Shallow embedding of the `richfetch` repository (files `richfetch.py` and
`fetch.py`) together with proofs settling the frozen claims C1-C10.

Python values are embedded as follows: floats that the program only
compares and formats become `ℚ`; strings become `String`; `None`-able
values become `Option`; exceptions become `Except` or explicit outcome
types; the insertion-ordered Python `dict` used for the display mapping
becomes a key-updating fold over an association list (`dictOfList`).
`termcolor.colored(text, color)` produces the ANSI string
`"\x1b[<code>m" ++ text ++ "\x1b[0m"`; since the color-name-to-code table
is injective on the colors the program uses, two colored labels are equal
as Python strings exactly when their (text, color) pairs are equal, so
decorated labels are embedded as pairs of a glyph and a color.
-/

/-- The termcolor foreground colors used by the program. -/
inductive Color
  | red
  | green
  | yellow
  | blue
  | magenta
  | cyan
  | white
deriving DecidableEq, Repr

/-- termcolor foreground ANSI code for each color (termcolor's COLORS table). -/
def colorCode : Color → String
  | .red => "31"
  | .green => "32"
  | .yellow => "33"
  | .blue => "34"
  | .magenta => "35"
  | .cyan => "36"
  | .white => "37"

/-- Every icon glyph (and the one textual logo) appearing in the two source
files, named by use.  `glyphStr` maps each to the exact source text. -/
inductive Glyph
  | nfUser      -- U+F415, the user@host label
  | nfCpu       -- U+EC19, the CPU label (used for both the name and the load)
  | nfTemp      -- U+F2C9, the thermometer label
  | nfBatCharge -- U+F0084, battery logo when plugged
  | nfBatNorm   -- U+F12A3, battery logo otherwise
  | nfScreen    -- U+F0A07, the session-manager label
  | nfClock     -- U+F252, the uptime label
  | nfRam       -- U+E266, the memory label
  | nfDisk      -- U+F0C7, the disk label
  | nfIpA       -- U+F0A69, rich private-IP label; minimal variant both IP labels
  | nfIpB       -- U+F0469, rich public-IP label
  | lgAlpine | lgArch | lgArtix | lgCentos | lgDebian | lgDeepin
  | lgElementary | lgEndeavour | lgFedora | lgFreebsd | lgParabola
  | lgGaruda | lgGentoo | lgHyperbola | lgKali | lgKdeNeon | lgKubuntu
  | lgMint | lgLubuntu | lgApple | lgMageia | lgManjaro | lgMx | lgNixos
  | lgSuse | lgParrot | lgPop | lgPostmarket | lgPuppy | lgQubes
  | lgRaspberry | lgRhel | lgSlackware | lgSolus | lgTails | lgUbuntu
  | lgBudgie | lgVanilla | lgVoid | lgWindows | lgXubuntu | lgZorin
  | lgFallback  -- U+E712, the fallback logo of get_os_logo
deriving DecidableEq, Repr

/-- The literal text of each glyph as it appears in the Python source. -/
def glyphStr : Glyph → String
  | .nfUser => (Char.ofNat 0xF415).toString
  | .nfCpu => (Char.ofNat 0xEC19).toString
  | .nfTemp => (Char.ofNat 0xF2C9).toString
  | .nfBatCharge => (Char.ofNat 0xF0084).toString
  | .nfBatNorm => (Char.ofNat 0xF12A3).toString
  | .nfScreen => (Char.ofNat 0xF0A07).toString
  | .nfClock => (Char.ofNat 0xF252).toString
  | .nfRam => (Char.ofNat 0xE266).toString
  | .nfDisk => (Char.ofNat 0xF0C7).toString
  | .nfIpA => (Char.ofNat 0xF0A69).toString
  | .nfIpB => (Char.ofNat 0xF0469).toString
  | .lgAlpine => (Char.ofNat 0xF300).toString
  | .lgArch => (Char.ofNat 0xF08C7).toString
  | .lgArtix => (Char.ofNat 0xF31F).toString
  | .lgCentos => (Char.ofNat 0xEF3D).toString
  | .lgDebian => (Char.ofNat 0xF306).toString
  | .lgDeepin => (Char.ofNat 0xF321).toString
  | .lgElementary => (Char.ofNat 0xF309).toString
  | .lgEndeavour => (Char.ofNat 0xF322).toString
  | .lgFedora => (Char.ofNat 0xF30A).toString
  | .lgFreebsd => (Char.ofNat 0xF28F).toString
  | .lgParabola => (Char.ofNat 0xF340).toString
  | .lgGaruda => (Char.ofNat 0xF337).toString
  | .lgGentoo => (Char.ofNat 0xF08E8).toString
  | .lgHyperbola => (Char.ofNat 0xF33A).toString
  | .lgKali => (Char.ofNat 0xF327).toString
  | .lgKdeNeon => (Char.ofNat 0xF331).toString
  | .lgKubuntu => (Char.ofNat 0xF333).toString
  | .lgMint => (Char.ofNat 0xF08ED).toString
  | .lgLubuntu => (Char.ofNat 0xF363).toString
  | .lgApple => (Char.ofNat 0xE711).toString
  | .lgMageia => (Char.ofNat 0xF310).toString
  | .lgManjaro => (Char.ofNat 0xF312).toString
  | .lgMx => (Char.ofNat 0xF33F).toString
  | .lgNixos => (Char.ofNat 0xF313).toString
  | .lgSuse => (Char.ofNat 0xF314).toString
  | .lgParrot => (Char.ofNat 0xF329).toString
  | .lgPop => (Char.ofNat 0xF32A).toString
  | .lgPostmarket => (Char.ofNat 0xF374).toString
  | .lgPuppy => (Char.ofNat 0xF341).toString
  | .lgQubes => (Char.ofNat 0xF342).toString
  | .lgRaspberry => (Char.ofNat 0xEF5C).toString
  | .lgRhel => "Red Hat Enterprise Linux"
  | .lgSlackware => (Char.ofNat 0xF318).toString
  | .lgSolus => (Char.ofNat 0xF32D).toString
  | .lgTails => (Char.ofNat 0xF343).toString
  | .lgUbuntu => (Char.ofNat 0xE73A).toString
  | .lgBudgie => (Char.ofNat 0xF320).toString
  | .lgVanilla => (Char.ofNat 0xF366).toString
  | .lgVoid => (Char.ofNat 0xF32E).toString
  | .lgWindows => (Char.ofNat 0xE70F).toString
  | .lgXubuntu => (Char.ofNat 0xF368).toString
  | .lgZorin => (Char.ofNat 0xF32F).toString
  | .lgFallback => (Char.ofNat 0xE712).toString

/-- A `termcolor.colored` glyph label: `colored(glyphStr glyph, color)`. -/
structure Colored where
  glyph : Glyph
  color : Color
deriving DecidableEq, Repr

/-- Render a colored glyph to the ANSI string Python produces. -/
def renderColored (c : Colored) : String :=
  "\x1b[" ++ colorCode c.color ++ "m" ++ glyphStr c.glyph ++ "\x1b[0m"

/-- A `termcolor.colored` call on a dynamically built text (the user@host
identity value). -/
structure ColorText where
  text : String
  color : Color
deriving DecidableEq, Repr

/-- Render a colored dynamic text to the ANSI string Python produces. -/
def renderColorText (c : ColorText) : String :=
  "\x1b[" ++ colorCode c.color ++ "m" ++ c.text ++ "\x1b[0m"

/-- A display-dict key: every key is a colored glyph except the plain
string key `" "` of the decorative color line. -/
inductive Lab
  | col (c : Colored)
  | plain (s : String)
deriving DecidableEq, Repr

/-- A display-dict value: Python `None`, a plain string, or a colored text. -/
inductive Val
  | vnone
  | vstr (s : String)
  | vcol (c : ColorText)
deriving DecidableEq, Repr

/-- Python `str()` of a display key, as interpolated into the output line. -/
def renderLab : Lab → String
  | .col c => renderColored c
  | .plain s => s

/-- Python `str()` of a display value, as interpolated into the output line. -/
def renderVal : Val → String
  | .vnone => "None"
  | .vstr s => s
  | .vcol c => renderColorText c

/-- Embedding of an `Option String` metric result as a display value:
Python renders `None` as the string `"None"`. -/
def optVal : Option String → Val
  | none => .vnone
  | some s => .vstr s

/-- Embeds `color_usage_percent` of `richfetch.py` (lines 135-142). -/
def color_usage_percent (percent : ℚ) : Color :=
  if percent < 60 then .green
  else if percent < 80 then .yellow
  else .red

/-- Embeds `color_cpu_temp` of `richfetch.py` (lines 112-132). -/
def color_cpu_temp (temp : ℚ) : Color :=
  if temp < 60 then .green
  else if temp < 70 then .yellow
  else .red

/-- Embeds `int(boot_time.total_seconds() // 3600)` of `richfetch.py`
line 252 / `fetch.py` line 47 (`//` is Python floor division; `int` of the
already-integral float is the identity). -/
def uptimeHours (secs : ℚ) : ℤ := ⌊secs / 3600⌋

/-- Embeds `int((boot_time.total_seconds() % 3600) // 60)` of
`richfetch.py` line 253 / `fetch.py` line 48; for the positive modulus
3600, Python float `%` satisfies `x % 3600 = x - 3600 * (x // 3600)`. -/
def uptimeMinutes (secs : ℚ) : ℤ :=
  ⌊(secs - 3600 * (uptimeHours secs : ℚ)) / 60⌋

/-- Embeds `f"{uptime_hours} hrs, {uptime_minutes} mins"` of
`richfetch.py` line 254 / `fetch.py` line 50. -/
def uptimeStr (secs : ℚ) : String :=
  toString (uptimeHours secs) ++ " hrs, " ++ toString (uptimeMinutes secs) ++ " mins"

/-- Embeds Python `round()` (round half to even) applied to a float. -/
def rndHalfEven (q : ℚ) : ℤ :=
  if q - ⌊q⌋ < 1/2 then ⌊q⌋
  else if 1/2 < q - ⌊q⌋ then ⌊q⌋ + 1
  else if ⌊q⌋ % 2 = 0 then ⌊q⌋ else ⌊q⌋ + 1

/-- Embeds Python `f"{x:.2f}"`: two decimal places, rounding half to even. -/
def fmt2 (q : ℚ) : String :=
  let n : ℤ := rndHalfEven (q * 100)
  let a : ℕ := n.natAbs
  let fps : String := if a % 100 < 10 then "0" ++ toString (a % 100) else toString (a % 100)
  (if n < 0 then "-" else "") ++ toString (a / 100) ++ "." ++ fps

/-- Embeds Python `str()` of a float: the decimal expansion, with at least
one fractional digit.  Exact for every value whose decimal expansion has at
most 17 fractional digits, which covers all readings used in this file. -/
def pyFloatRepr (q : ℚ) : String :=
  match (List.range 18).find? (fun k => (q * (10 : ℚ) ^ k).den == 1) with
  | some k =>
    if k == 0 then toString q.num ++ ".0"
    else
      let n : ℤ := (q * (10 : ℚ) ^ k).num
      let s : String := toString n.natAbs
      let s : String :=
        if s.length < k + 1 then String.mk (List.replicate (k + 1 - s.length) '0') ++ s else s
      (if n < 0 then "-" else "") ++ s.dropRight k ++ "." ++ s.takeRight k
  | none => toString q.num ++ "/" ++ toString q.den

/-- Embeds the Python `or` of two environment lookups (`richfetch.py`
line 257, `fetch.py` line 53): an unset variable gives `None`, and an
empty string is falsy, so both fall through to the second lookup. -/
def pyOr (a b : Option String) : Option String :=
  match a with
  | some s => if s = "" then b else some s
  | none => b

/-- Python truthiness of an `Option Bool` (`if plugged` where plugged may
be `None`, `richfetch.py` line 286). -/
def truthyOB : Option Bool → Bool
  | some true => true
  | _ => false

/-- Embeds a Python dict lookup (`.get` / `[...]`) over the embedded dict. -/
def assocLookup {α : Type} : List (String × α) → String → Option α
  | [], _ => none
  | (k, v) :: rest, key => if key = k then some v else assocLookup rest key

/-- The body requests delivers for the public-IP call: either unparsable
JSON (`response.json()` raises) or a JSON object of string fields. -/
inductive JsonBody
  | malformed
  | obj (fields : List (String × String))
deriving DecidableEq, Repr

/-- Outcome of `requests.get("https://api.ipify.org?format=json")`: a
raised transport error (`requests.exceptions.RequestException`) or a
delivered response with an HTTP status code and a body. -/
inductive HttpOutcome
  | transportError (msg : String)
  | response (status : ℕ) (body : JsonBody)
deriving DecidableEq, Repr

/-- Embeds `get_public_ip` of `richfetch.py` (lines 14-38) and the
control-flow-identical `get_public_address` of `fetch.py` (lines 12-18).
`response.raise_for_status()` raises `HTTPError` (a `RequestException`)
exactly for status codes 400-599; a raised `RequestException` is caught by
the first handler, and the exceptions of `response.json()` on a malformed
body and of the `["ip"]` lookup on a missing key are caught by the blanket
`except Exception` handler.  Every handler returns `None`. -/
def get_public_ip : HttpOutcome → Option String
  | .transportError _ => none
  | .response status body =>
    if 400 ≤ status ∧ status < 600 then none
    else
      match body with
      | .malformed => none
      | .obj fields =>
        match assocLookup fields "ip" with
        | none => none
        | some ip => some ip

/-- The behavior of the host when the private-IP UDP socket is used:
whether `s.connect(("8.8.8.8", 80))` raises, and what
`s.getsockname()[0]` returns (or raises) if reached. -/
structure SockWorld where
  connectErr : Option String
  sockName : Except String String

/-- Embeds `get_private_ip` of `richfetch.py` (lines 41-70) and the
control-flow-identical `get_local_address` of `fetch.py` (lines 21-29),
additionally recording whether `s.close()` was executed before the
function returned.  The source closes the socket only on the straight-line
path; both `except` handlers return `None` without closing it. -/
def runPrivateIp (w : SockWorld) : Option String × Bool :=
  match w.connectErr with
  | some _ => (none, false)
  | none =>
    match w.sockName with
    | .error _ => (none, false)
    | .ok ip => (some ip, true)

/-- The prioritized sensor identifiers of `get_cpu_temperature`
(`richfetch.py` lines 90-98), in source order. -/
def sensorNames : List String :=
  ["coretemp", "k10temp", "cpu-thermal", "lm_sensors", "asus-nb", "lm75", "acpitz"]

/-- The loop of `get_cpu_temperature` (`richfetch.py` lines 104-109):
`all_temperatures.get(sensor)` is truthy exactly when the sensor is
present with a nonempty reading list, and then `temperatures[0].current`
is returned. -/
def firstSensor : List String → List (String × List ℚ) → Option ℚ
  | [], _ => none
  | s :: rest, m =>
    match assocLookup m s with
    | some (t :: _) => some t
    | _ => firstSensor rest m

/-- Embeds `get_cpu_temperature` of `richfetch.py` (lines 73-109); the
argument is the sensor map returned by `psutil.sensors_temperatures()`
(checked against `None` on line 101). -/
def get_cpu_temperature (all_temperatures : Option (List (String × List ℚ))) : Option ℚ :=
  match all_temperatures with
  | none => none
  | some m => firstSensor sensorNames m

/-- Whether a sensor name is truthy in the sensor map: present with a
nonempty reading list. -/
def sensorHasReading (m : List (String × List ℚ)) (name : String) : Bool :=
  match assocLookup m name with
  | some (_ :: _) => true
  | _ => false

/-- Embeds the `logo_dict` literal of `get_os_logo` (`richfetch.py`
lines 146-190): OS name to colored logo, in source order. -/
def logo_dict : List (String × Colored) :=
  [("Alpine Linux", ⟨.lgAlpine, .blue⟩),
   ("Arch Linux", ⟨.lgArch, .blue⟩),
   ("Artix Linux", ⟨.lgArtix, .blue⟩),
   ("CentOS Stream 9", ⟨.lgCentos, .yellow⟩),
   ("Debian GNU/Linux 11 Bullseye", ⟨.lgDebian, .red⟩),
   ("Deepin", ⟨.lgDeepin, .blue⟩),
   ("Elementary OS 7: Loki", ⟨.lgElementary, .blue⟩),
   ("EndeavourOS", ⟨.lgEndeavour, .magenta⟩),
   ("Fedora Linux", ⟨.lgFedora, .blue⟩),
   ("FreeBSD", ⟨.lgFreebsd, .red⟩),
   ("Parabola GNU/Linux-libre", ⟨.lgParabola, .blue⟩),
   ("Garuda Linux", ⟨.lgGaruda, .yellow⟩),
   ("Gentoo Linux", ⟨.lgGentoo, .white⟩),
   ("Hyperbola GNU/Linux-libre", ⟨.lgHyperbola, .blue⟩),
   ("Kali Linux", ⟨.lgKali, .blue⟩),
   ("KDE Neon", ⟨.lgKdeNeon, .blue⟩),
   ("Kubuntu", ⟨.lgKubuntu, .blue⟩),
   ("Linux Mint 21 Cinnamon", ⟨.lgMint, .green⟩),
   ("Lubuntu", ⟨.lgLubuntu, .blue⟩),
   ("macOS", ⟨.lgApple, .white⟩),
   ("Mageia", ⟨.lgMageia, .blue⟩),
   ("Manjaro Linux", ⟨.lgManjaro, .green⟩),
   ("MX Linux", ⟨.lgMx, .white⟩),
   ("NixOS", ⟨.lgNixos, .blue⟩),
   ("openSUSE Leap 15.4", ⟨.lgSuse, .green⟩),
   ("openSUSE Tumbleweed", ⟨.lgSuse, .green⟩),
   ("Parrot Security OS", ⟨.lgParrot, .green⟩),
   ("Pop!_OS 22.04", ⟨.lgPop, .blue⟩),
   ("PostmarketOS", ⟨.lgPostmarket, .green⟩),
   ("Puppy Linux", ⟨.lgPuppy, .white⟩),
   ("Qubes OS", ⟨.lgQubes, .blue⟩),
   ("Raspberry Pi OS", ⟨.lgRaspberry, .red⟩),
   ("Red Hat Enterprise Linux", ⟨.lgRhel, .red⟩),
   ("Slackware Linux", ⟨.lgSlackware, .blue⟩),
   ("Solus", ⟨.lgSolus, .blue⟩),
   ("Tails", ⟨.lgTails, .magenta⟩),
   ("Ubuntu 22.04 LTS", ⟨.lgUbuntu, .yellow⟩),
   ("Ubuntu Budgie", ⟨.lgBudgie, .magenta⟩),
   ("Vanilla OS", ⟨.lgVanilla, .yellow⟩),
   ("Void Linux", ⟨.lgVoid, .green⟩),
   ("Windows", ⟨.lgWindows, .blue⟩),
   ("Xubuntu", ⟨.lgXubuntu, .blue⟩),
   ("Zorin OS", ⟨.lgZorin, .blue⟩)]

/-- The fallback logo of `get_os_logo`: `colored("", "yellow")` with the
glyph U+E712 (`richfetch.py` line 192). -/
def fallbackLogo : Colored := ⟨.lgFallback, .yellow⟩

/-- Embeds `get_os_logo` of `richfetch.py` (lines 145-192):
`logo_dict.get(os_name, colored("", "yellow"))`, an exact, case-sensitive
dict lookup with a default. -/
def get_os_logo (os_name : String) : Colored :=
  (assocLookup logo_dict os_name).getD fallbackLogo

/-- All values `get_os_logo` can return: the table values plus the fallback. -/
def logoValues : List Colored := logo_dict.map Prod.snd ++ [fallbackLogo]

/-- Embeds `dynamic_color_line` of `richfetch.py` (lines 203-211). -/
def dynamic_color_line : String :=
  String.join
    ((([(Char.ofNat 0xF169D).toString, (Char.ofNat 0xF169F).toString,
        (Char.ofNat 0xF16A3).toString, (Char.ofNat 0xF06A9).toString,
        (Char.ofNat 0xF1719).toString, (Char.ofNat 0xF16A5).toString]).zip
      ([Color.red, .yellow, .green, .blue, .cyan, .magenta])).map
      (fun p => "\x1b[" ++ colorCode p.2 ++ "m" ++ p.1 ++ "\x1b[0m" ++ " "))

/-- The branch of `get_system_info` (`richfetch.py` lines 228-240) that
resolves the OS: `platform.system()` with the associated
platform-specific version data. -/
inductive OsType
  | darwin (macVer : String)
  | windows (winVerStr : String)
  | posixOther (prettyName : String)

/-- The `os_name` of `richfetch.py` lines 230-240 (on Windows the source
interpolates the whole `platform.win32_ver()` tuple, embedded here as its
rendered string). -/
def osName : OsType → String
  | .darwin v => "macos " ++ v
  | .windows v => "Windows " ++ v
  | .posixOther p => p

/-- The `os_logo` of `richfetch.py` lines 230-240. -/
def osLogoOf : OsType → Colored
  | .darwin _ => get_os_logo "macOS"
  | .windows _ => get_os_logo "Windows"
  | .posixOther p => get_os_logo p

/-- The outbound network operations the claims track. -/
inductive NetEffect
  | udpConnect
  | httpGet
deriving DecidableEq, Repr

/-- One step of Python `dict` insertion/update: if the key is present the
value is replaced in place (insertion position kept), otherwise the pair
is appended. -/
def dictUpd : List (Lab × Val) → Lab × Val → List (Lab × Val)
  | [], kv => [kv]
  | p :: rest, kv => if p.1 = kv.1 then (p.1, kv.2) :: rest else p :: dictUpd rest kv

/-- A Python dict built by inserting the listed pairs in order (dict
literals and `.update` calls both insert left to right). -/
def dictOfList (l : List (Lab × Val)) : List (Lab × Val) := l.foldl dictUpd []

/-- The keys of a display mapping, in order. -/
def keysOf (l : List (Lab × Val)) : List Lab := l.map Prod.fst

/-- The glyph of a display key, when it is a colored glyph. -/
def labGlyph : Lab → Option Glyph
  | .col c => some c.glyph
  | .plain _ => none

/-- The display contains an entry labeled with the given glyph. -/
def HasGlyph (d : List (Lab × Val)) (g : Glyph) : Prop :=
  ∃ p ∈ d, labGlyph p.1 = some g

instance (d : List (Lab × Val)) (g : Glyph) : Decidable (HasGlyph d g) := by
  unfold HasGlyph
  infer_instance

/-- The host state read by `get_system_info` of `richfetch.py`
(lines 214-351), one field per independent host/library lookup, plus the
two CLI flags. -/
structure RichState where
  osType : OsType
  username : String
  hostname : String
  uptimeSeconds : ℚ
  desktopSession : Option String
  xdgSessionType : Option String
  cpuBrand : String
  cpuPercent : ℚ
  sensors : Option (List (String × List ℚ))
  battery : Option (ℚ × Option Bool)
  showPublicIp : Bool
  showPrivateIp : Bool
  privateIpWorld : SockWorld
  publicOutcome : HttpOutcome
  diskTotal : ℚ
  diskUsed : ℚ
  diskPercent : ℚ
  ramTotal : ℚ
  ramUsed : ℚ
  ramPercent : ℚ

/-- `wm` of `richfetch.py` line 257. -/
def wmOf (s : RichState) : Option String := pyOr s.desktopSession s.xdgSessionType

/-- `plugged` of `richfetch.py` lines 281-284: `None` when there is no
battery (the `sensors_battery()` access raises `AttributeError`),
otherwise the battery's possibly unknown `power_plugged`. -/
def pluggedOf (s : RichState) : Option Bool :=
  match s.battery with
  | none => none
  | some (_, pp) => pp

/-- `battery_logo` of `richfetch.py` line 286. -/
def batteryLogoOf (s : RichState) : Glyph :=
  if truthyOB (pluggedOf s) then .nfBatCharge else .nfBatNorm

/-- `battery` of `richfetch.py` lines 277-280: `None` without a battery,
otherwise `f"{round(...percent)}%"`. -/
def batteryStrOf (s : RichState) : Option String :=
  match s.battery with
  | none => none
  | some (pct, _) => some (toString (rndHalfEven pct) ++ "%")

/-- `private_ip` of `richfetch.py` lines 290-294: `None` unless
`--show-private-ip` was given, in which case `get_private_ip()` runs. -/
def privateIpOf (s : RichState) : Option String :=
  if s.showPrivateIp then (runPrivateIp s.privateIpWorld).1 else none

/-- `public_ip` of `richfetch.py` lines 291-297: `None` unless
`--show-public-ip` was given, in which case `get_public_ip()` runs. -/
def publicIpOf (s : RichState) : Option String :=
  if s.showPublicIp then get_public_ip s.publicOutcome else none

/-- The usage string shared by disk and RAM (`richfetch.py` lines 303-305
and 312, `fetch.py` lines 73 and 79):
`f"{used:.2f} / {total:.2f} GB ({percent:.2f}%)"` after the division of
the byte counts by `1024**3`. -/
def usageStr (used total percent : ℚ) : String :=
  fmt2 (used / 1024 ^ 3) ++ " / " ++ fmt2 (total / 1024 ^ 3) ++ " GB (" ++ fmt2 percent ++ "%)"

/-- A display segment appended only under a source `is not None` guard:
one entry built from the present value, or nothing. -/
def optEntry {β : Type} (o : Option β) (f : β → Lab × Val) : List (Lab × Val) :=
  match o with
  | some x => [f x]
  | none => []

/-- The pairs inserted into the `display` dict of `richfetch.py`
(lines 318-349), in insertion order: the dict literal, then each
conditional or unconditional `.update` call. -/
def richEntries (s : RichState) : List (Lab × Val) :=
  [(.col ⟨.nfUser, .green⟩, .vcol ⟨s.username ++ "@" ++ s.hostname, .green⟩),
   (.col (osLogoOf s.osType), .vstr (osName s.osType)),
   (.col ⟨.nfCpu, .blue⟩, .vstr s.cpuBrand),
   (.col ⟨.nfCpu, color_usage_percent s.cpuPercent⟩, .vstr (pyFloatRepr s.cpuPercent ++ "%"))]
  ++ optEntry (get_cpu_temperature s.sensors) (fun t =>
      (.col ⟨.nfTemp, color_cpu_temp t⟩,
       .vstr (pyFloatRepr t ++ (Char.ofNat 0xF0504).toString)))
  ++ optEntry (batteryStrOf s) (fun b => (.col ⟨batteryLogoOf s, .green⟩, .vstr b))
  ++ [(.col ⟨.nfScreen, .red⟩, optVal (wmOf s)),
      (.col ⟨.nfClock, .magenta⟩, .vstr (uptimeStr s.uptimeSeconds)),
      (.col ⟨.nfRam, color_usage_percent s.ramPercent⟩,
        .vstr (usageStr s.ramUsed s.ramTotal s.ramPercent)),
      (.col ⟨.nfDisk, color_usage_percent s.diskPercent⟩,
        .vstr (usageStr s.diskUsed s.diskTotal s.diskPercent))]
  ++ optEntry (privateIpOf s) (fun ip => (.col ⟨.nfIpA, .green⟩, .vstr ip))
  ++ optEntry (publicIpOf s) (fun ip => (.col ⟨.nfIpB, .green⟩, .vstr ip))
  ++ [(.plain " ", .vstr dynamic_color_line)]

/-- The `display` dict returned by `get_system_info` of `richfetch.py`:
the entries inserted in order under Python dict semantics. -/
def richDisplay (s : RichState) : List (Lab × Val) := dictOfList (richEntries s)

/-- The outbound network operations `get_system_info` of `richfetch.py`
performs (lines 293-297): the private-IP socket probe iff
`--show-private-ip`, then the public-IP HTTP request iff
`--show-public-ip`. -/
def richEffects (s : RichState) : List NetEffect :=
  (if s.showPrivateIp then [NetEffect.udpConnect] else [])
  ++ (if s.showPublicIp then [NetEffect.httpGet] else [])

/-- One printed report line: `f"  {key}  {value}"` (`richfetch.py`
line 359, `fetch.py` line 100). -/
def pyLine (p : Lab × Val) : String := "  " ++ renderLab p.1 ++ "  " ++ renderVal p.2

/-- The lines printed by `main` of `richfetch.py` (lines 354-360): a blank
line, one line per display entry, a trailing blank line. -/
def richOutput (s : RichState) : List String :=
  "" :: ((richDisplay s).map pyLine ++ [""])

/-- The host state read by `fetch.py`.  The minimal variant parses no
flags; its sensor map is the bare `psutil.sensors_temperatures()` dict
(indexed directly, without a `None` guard). -/
structure FetchState where
  username : String
  hostname : String
  uptimeSeconds : ℚ
  desktopSession : Option String
  xdgSessionType : Option String
  cpuBrand : String
  cpuPercent : ℚ
  sensors : List (String × List ℚ)
  localIpWorld : SockWorld
  publicOutcome : HttpOutcome
  diskTotal : ℚ
  diskUsed : ℚ
  diskPercent : ℚ
  ramTotal : ℚ
  ramUsed : ℚ
  ramPercent : ℚ

/-- Embeds `psutil.sensors_temperatures()['coretemp'][0].current` of
`fetch.py` line 61: a missing key raises `KeyError`, an empty reading list
raises `IndexError`, and `fetch.py` catches neither. -/
def fetchTemp (sensors : List (String × List ℚ)) : Except String ℚ :=
  match assocLookup sensors "coretemp" with
  | none => .error "KeyError: coretemp"
  | some [] => .error "IndexError: list index out of range"
  | some (t :: _) => .ok t

/-- The pairs of the dict literal returned by `get_system_info` of
`fetch.py` (lines 82-93), in source order, given the temperature reading
and the two IP results. -/
def fetchEntries (s : FetchState) (t : ℚ) (localIp publicIp : Option String) :
    List (Lab × Val) :=
  [(.col ⟨.nfUser, .blue⟩, .vcol ⟨s.username ++ "@" ++ s.hostname, .green⟩),
   (.col ⟨.nfCpu, .blue⟩, .vstr s.cpuBrand),
   (.col ⟨.nfCpu, .blue⟩, .vstr (pyFloatRepr s.cpuPercent ++ "%")),
   (.col ⟨.nfTemp, .red⟩, .vstr (pyFloatRepr t ++ (Char.ofNat 0xF0504).toString)),
   (.col ⟨.nfScreen, .blue⟩, optVal (pyOr s.desktopSession s.xdgSessionType)),
   (.col ⟨.nfClock, .yellow⟩, .vstr (uptimeStr s.uptimeSeconds)),
   (.col ⟨.nfRam, .red⟩, .vstr (usageStr s.ramUsed s.ramTotal s.ramPercent)),
   (.col ⟨.nfDisk, .magenta⟩, .vstr (usageStr s.diskUsed s.diskTotal s.diskPercent)),
   (.col ⟨.nfIpA, .yellow⟩, optVal localIp),
   (.col ⟨.nfIpA, .green⟩, optVal publicIp)]

/-- Runs `get_system_info` of `fetch.py` (lines 32-93), returning the
network operations performed and either the returned dict or the uncaught
exception.  The direct `coretemp` access on line 61 runs before the IP
lookups on lines 65-66, so when it raises, no network operation happens
and the whole report is abandoned. -/
def fetchRun (s : FetchState) : List NetEffect × Except String (List (Lab × Val)) :=
  match fetchTemp s.sensors with
  | .error e => ([], .error e)
  | .ok t =>
    ([NetEffect.udpConnect, NetEffect.httpGet],
     .ok (dictOfList
       (fetchEntries s t (runPrivateIp s.localIpWorld).1 (get_public_ip s.publicOutcome))))

/-- The lines printed by the `__main__` block of `fetch.py`
(lines 95-100) when `get_system_info` returns: one blank line
(`print("\n", end="")`), then one line per entry, with no trailing blank
line. -/
def fetchOutput (s : FetchState) : Except String (List String) :=
  (fetchRun s).2.map (fun d => "" :: d.map pyLine)

/-- The slot index of each possible rich-display key, used to show the
thirteen keys are pairwise distinct for every host state: the key
sequence of `richEntries` maps to a strictly increasing slot list. -/
def tagOf : Lab → ℕ
  | .plain _ => 12
  | .col c =>
    match c.glyph, c.color with
    | .nfUser, _ => 0
    | .nfCpu, .blue => 2
    | .nfCpu, _ => 3
    | .nfTemp, _ => 4
    | .nfBatCharge, _ => 5
    | .nfBatNorm, _ => 5
    | .nfScreen, _ => 6
    | .nfClock, _ => 7
    | .nfRam, _ => 8
    | .nfDisk, _ => 9
    | .nfIpA, _ => 10
    | .nfIpB, _ => 11
    | _, _ => 1

/-- The report of a completed run, or the empty list when the run raised. -/
def okReport : Except String (List (Lab × Val)) → List (Lab × Val)
  | .ok d => d
  | .error _ => []

/-- The printed lines of a completed run, or the empty list when the run
raised. -/
def okLines : Except String (List String) → List String
  | .ok l => l
  | .error _ => []

/-- A concrete rich-variant host state: an Arch Linux box with one
coretemp reading, no battery, both DESKTOP_SESSION and XDG_SESSION_TYPE
unset, and neither IP flag supplied.  Fields in declaration order: OS,
user, host, uptime seconds, the two session environment variables, CPU
brand, CPU percent, sensor map, battery, the two flags, the socket world,
the HTTP outcome, disk total/used bytes and percent, RAM total/used bytes
and percent. -/
def stateNoWm : RichState :=
  ⟨.posixOther "Arch Linux", "alice", "box", 13510, none, none,
   "TestCPU", 25 / 2, some [("coretemp", [43])], none, false, false,
   ⟨none, .ok "192.168.0.2"⟩, .response 200 (.obj [("ip", "203.0.113.7")]),
   4294967296, 2147483648, 50, 4294967296, 2147483648, 50⟩

/-- A concrete rich-variant host state on which the optional collectors
fail: the sensor map is empty, there is no battery, `--show-public-ip`
and `--show-private-ip` are both supplied, the UDP connect raises and the
HTTP request raises a transport error.  Field order as in `stateNoWm`. -/
def stateFailures : RichState :=
  ⟨.posixOther "Arch Linux", "alice", "box", 13510, some "plasma", none,
   "TestCPU", 25 / 2, some [], none, true, true,
   ⟨some "Network is unreachable", .error "unreached"⟩, .transportError "Connection timed out",
   4294967296, 2147483648, 50, 4294967296, 2147483648, 50⟩

/-- A concrete minimal-variant host state with a coretemp reading, on
which the public-IP request raises a transport error.  Fields in
declaration order: user, host, uptime seconds, the two session
environment variables, CPU brand, CPU percent, sensor map, socket world,
HTTP outcome, disk total/used bytes and percent, RAM total/used bytes and
percent. -/
def fetchStateA : FetchState :=
  ⟨"alice", "box", 13510, some "plasma", none, "TestCPU", 25 / 2,
   [("coretemp", [43])], ⟨none, .ok "192.168.0.2"⟩, .transportError "boom",
   4294967296, 2147483648, 50, 4294967296, 2147483648, 50⟩

/-- A concrete minimal-variant host state whose sensor map has no
`coretemp` entry (e.g. an AMD or non-Linux host).  Field order as in
`fetchStateA`. -/
def fetchStateNoCoretemp : FetchState :=
  ⟨"alice", "box", 13510, some "plasma", none, "TestCPU", 25 / 2,
   [("k10temp", [55])], ⟨none, .ok "192.168.0.2"⟩, .response 200 (.obj [("ip", "203.0.113.7")]),
   4294967296, 2147483648, 50, 4294967296, 2147483648, 50⟩

/-- The rich display of `stateNoWm`, written out literally (the battery
and both IP entries are absent; the session entry carries the missing
value). -/
def dispNoWm : List (Lab × Val) :=
  [(.col ⟨.nfUser, .green⟩, .vcol ⟨"alice@box", .green⟩),
   (.col ⟨.lgArch, .blue⟩, .vstr "Arch Linux"),
   (.col ⟨.nfCpu, .blue⟩, .vstr "TestCPU"),
   (.col ⟨.nfCpu, .green⟩, .vstr "12.5%"),
   (.col ⟨.nfTemp, .green⟩, .vstr "43.0󰔄"),
   (.col ⟨.nfScreen, .red⟩, .vnone),
   (.col ⟨.nfClock, .magenta⟩, .vstr "3 hrs, 45 mins"),
   (.col ⟨.nfRam, .green⟩, .vstr "2.00 / 4.00 GB (50.00%)"),
   (.col ⟨.nfDisk, .green⟩, .vstr "2.00 / 4.00 GB (50.00%)"),
   (.plain " ", .vstr dynamic_color_line)]

/-- The minimal variant's report on `fetchStateA`, written out literally:
nine entries — the CPU-name entry was overwritten in place by the
CPU-load entry, which shares its decorated label, and the failed
public-IP lookup is rendered as the missing value. -/
def reportFetchA : List (Lab × Val) :=
  [(.col ⟨.nfUser, .blue⟩, .vcol ⟨"alice@box", .green⟩),
   (.col ⟨.nfCpu, .blue⟩, .vstr "12.5%"),
   (.col ⟨.nfTemp, .red⟩, .vstr "43.0󰔄"),
   (.col ⟨.nfScreen, .blue⟩, .vstr "plasma"),
   (.col ⟨.nfClock, .yellow⟩, .vstr "3 hrs, 45 mins"),
   (.col ⟨.nfRam, .red⟩, .vstr "2.00 / 4.00 GB (50.00%)"),
   (.col ⟨.nfDisk, .magenta⟩, .vstr "2.00 / 4.00 GB (50.00%)"),
   (.col ⟨.nfIpA, .yellow⟩, .vstr "192.168.0.2"),
   (.col ⟨.nfIpA, .green⟩, .vnone)]

/-- Updating a dict with a fresh key appends the pair. -/
theorem dictUpd_append (d : List (Lab × Val)) (kv : Lab × Val)
    (h : ∀ p ∈ d, p.1 ≠ kv.1) : dictUpd d kv = d ++ [kv] := by
  induction d with
  | nil => rfl
  | cons p rest ih =>
    unfold dictUpd
    rw [if_neg (h p (by simp))]
    rw [ih (fun q hq => h q (by simp [hq]))]
    simp

/-- Folding dict insertion over pairwise-fresh keys appends them all. -/
theorem foldl_dictUpd (l : List (Lab × Val)) :
    ∀ acc : List (Lab × Val), (∀ p ∈ acc, ∀ q ∈ l, p.1 ≠ q.1) →
    l.Pairwise (fun a b => a.1 ≠ b.1) → List.foldl dictUpd acc l = acc ++ l := by
  induction l with
  | nil => intro acc _ _; simp
  | cons q l ih =>
    intro acc hacc hl
    obtain ⟨hq, hl⟩ := List.pairwise_cons.mp hl
    rw [List.foldl_cons, dictUpd_append acc q (fun p hp => hacc p hp q (by simp))]
    rw [ih (acc ++ [q]) ?_ hl]
    · simp
    · intro p hp r hr
      rcases List.mem_append.mp hp with h1 | h1
      · exact hacc p h1 r (by simp [hr])
      · simp only [List.mem_singleton] at h1
        subst h1
        exact hq r hr

/-- A dict built from pairwise-distinct keys is the insertion list itself:
no entry is merged, replaced, or reordered. -/
theorem dictOfList_eq_self (l : List (Lab × Val))
    (hl : l.Pairwise (fun a b => a.1 ≠ b.1)) : dictOfList l = l := by
  have h := foldl_dictUpd l [] (by simp) hl
  simpa [dictOfList] using h

/-- The usage classifier only produces the three usage colors. -/
theorem color_usage_cases (p : ℚ) :
    color_usage_percent p = Color.green ∨ color_usage_percent p = Color.yellow ∨
      color_usage_percent p = Color.red := by
  unfold color_usage_percent
  split_ifs <;> simp

/-- The temperature classifier only produces the three heat colors. -/
theorem color_temp_cases (t : ℚ) :
    color_cpu_temp t = Color.green ∨ color_cpu_temp t = Color.yellow ∨
      color_cpu_temp t = Color.red := by
  unfold color_cpu_temp
  split_ifs <;> simp

/-- A successful association lookup returns one of the stored values. -/
theorem assocLookup_mem {α : Type} (l : List (String × α)) (k : String) (v : α)
    (h : assocLookup l k = some v) : v ∈ l.map Prod.snd := by
  induction l with
  | nil => simp [assocLookup] at h
  | cons p rest ih =>
    obtain ⟨pk, pv⟩ := p
    rw [assocLookup] at h
    by_cases hk : k = pk
    · rw [if_pos hk] at h
      simp at h
      simp [h]
    · rw [if_neg hk] at h
      simp [ih h]

/-- `get_os_logo` only returns table values or the fallback. -/
theorem get_os_logo_mem (name : String) : get_os_logo name ∈ logoValues := by
  unfold get_os_logo logoValues
  cases h : assocLookup logo_dict name with
  | none => simp
  | some c =>
    simp only [Option.getD_some]
    exact List.mem_append_left _ (assocLookup_mem _ _ _ h)

/-- Every OS logo key sits in display slot 1. -/
theorem tag_osLogo (t : OsType) : tagOf (Lab.col (osLogoOf t)) = 1 := by
  have hmem : ∀ c ∈ logoValues, tagOf (Lab.col c) = 1 := by decide
  cases t with
  | darwin v => exact hmem _ (get_os_logo_mem "macOS")
  | windows v => exact hmem _ (get_os_logo_mem "Windows")
  | posixOther p => exact hmem _ (get_os_logo_mem p)

/-- No OS logo uses any of the other display glyphs. -/
theorem osLogo_glyph_ne (t : OsType) (g : Glyph)
    (hg : g ∈ [Glyph.nfUser, Glyph.nfCpu, Glyph.nfTemp, Glyph.nfBatCharge, Glyph.nfBatNorm,
      Glyph.nfScreen, Glyph.nfClock, Glyph.nfRam, Glyph.nfDisk, Glyph.nfIpA, Glyph.nfIpB]) :
    (osLogoOf t).glyph ≠ g := by
  have hmem : ∀ c ∈ logoValues, ∀ g ∈ [Glyph.nfUser, Glyph.nfCpu, Glyph.nfTemp,
      Glyph.nfBatCharge, Glyph.nfBatNorm, Glyph.nfScreen, Glyph.nfClock, Glyph.nfRam,
      Glyph.nfDisk, Glyph.nfIpA, Glyph.nfIpB], c.glyph ≠ g := by decide
  cases t with
  | darwin v => exact hmem _ (get_os_logo_mem "macOS") g hg
  | windows v => exact hmem _ (get_os_logo_mem "Windows") g hg
  | posixOther p => exact hmem _ (get_os_logo_mem p) g hg

/-- The CPU load key sits in display slot 3 (its color is never blue). -/
theorem tag_load (p : ℚ) : tagOf (Lab.col ⟨.nfCpu, color_usage_percent p⟩) = 3 := by
  rcases color_usage_cases p with h | h | h <;> rw [h] <;> rfl

/-- The temperature key sits in display slot 4. -/
theorem tag_temp (t : ℚ) : tagOf (Lab.col ⟨.nfTemp, color_cpu_temp t⟩) = 4 := by
  rcases color_temp_cases t with h | h | h <;> rw [h] <;> rfl

/-- The battery key sits in display slot 5 for either battery glyph. -/
theorem tag_bat (s : RichState) : tagOf (Lab.col ⟨batteryLogoOf s, .green⟩) = 5 := by
  unfold batteryLogoOf
  cases truthyOB (pluggedOf s) <;> rfl

/-- The RAM key sits in display slot 8. -/
theorem tag_ram (p : ℚ) : tagOf (Lab.col ⟨.nfRam, color_usage_percent p⟩) = 8 := by
  rcases color_usage_cases p with h | h | h <;> rw [h] <;> rfl

/-- The disk key sits in display slot 9. -/
theorem tag_disk (p : ℚ) : tagOf (Lab.col ⟨.nfDisk, color_usage_percent p⟩) = 9 := by
  rcases color_usage_cases p with h | h | h <;> rw [h] <;> rfl

/-- An optional segment whose entry maps to a constant maps to a sublist
of the singleton of that constant. -/
theorem optEntry_map_sublist {β : Type} (o : Option β) (f : β → Lab × Val)
    (m : Lab × Val → ℕ) (c : ℕ) (h : ∀ x, m (f x) = c) :
    ((optEntry o f).map m).Sublist [c] := by
  cases o <;> simp [optEntry, h]

/-- Membership in an optional display segment. -/
theorem mem_optEntry {β : Type} (o : Option β) (f : β → Lab × Val) (p : Lab × Val) :
    p ∈ optEntry o f ↔ ∃ x, o = some x ∧ p = f x := by
  cases o <;> simp [optEntry]

/-- The slot sequence of the rich display keys is a sublist of the
increasing slot list 0..12. -/
theorem richTags_sublist (s : RichState) :
    ((richEntries s).map (fun p => tagOf p.1)).Sublist
      [0, 1, 2, 3, 4, 5, 6, 7, 8, 9, 10, 11, 12] := by
  have hEq : ([0, 1, 2, 3, 4, 5, 6, 7, 8, 9, 10, 11, 12] : List ℕ)
      = [0, 1, 2, 3] ++ [4] ++ [5] ++ [6, 7, 8, 9] ++ [10] ++ [11] ++ [12] := by rfl
  rw [hEq]
  unfold richEntries
  rw [List.map_append, List.map_append, List.map_append, List.map_append,
    List.map_append, List.map_append]
  refine List.Sublist.append (List.Sublist.append (List.Sublist.append
    (List.Sublist.append (List.Sublist.append (List.Sublist.append ?_ ?_) ?_) ?_) ?_) ?_) ?_
  · simp only [List.map_cons, List.map_nil, tag_osLogo, tag_load]
    exact List.Sublist.refl _
  · exact optEntry_map_sublist _ _ _ _ (fun t => tag_temp t)
  · exact optEntry_map_sublist _ _ _ _ (fun b => tag_bat s)
  · simp only [List.map_cons, List.map_nil, tag_ram, tag_disk]
    exact List.Sublist.refl _
  · exact optEntry_map_sublist _ _ _ _ (fun ip => rfl)
  · exact optEntry_map_sublist _ _ _ _ (fun ip => rfl)
  · simp only [List.map_cons, List.map_nil]
    exact List.Sublist.refl _

/-- For every host state, the thirteen possible rich display keys are
pairwise distinct, so the dict never merges two entries. -/
theorem richKeys_pairwise (s : RichState) :
    (richEntries s).Pairwise (fun a b => a.1 ≠ b.1) := by
  have hpw := List.Pairwise.sublist (richTags_sublist s)
    (by decide : ([0, 1, 2, 3, 4, 5, 6, 7, 8, 9, 10, 11, 12] : List ℕ).Pairwise (· ≠ ·))
  rw [List.pairwise_map] at hpw
  exact hpw.imp (fun h heq => h (by rw [heq]))

/-- The rich display dict is exactly the insertion sequence. -/
theorem richDisplay_eq (s : RichState) : richDisplay s = richEntries s :=
  dictOfList_eq_self _ (richKeys_pairwise s)

/-- Claim C6: for every usage percentage p (applied identically to CPU load,
memory, and disk), the usage color classifier returns green iff p < 60,
yellow iff 60 <= p < 80, and red iff p >= 80; the boundary inputs 60 and 80
map to yellow and red respectively. -/
theorem usage_color_classification (p : ℚ) :
    (color_usage_percent p = Color.green ↔ p < 60) ∧
    (color_usage_percent p = Color.yellow ↔ 60 ≤ p ∧ p < 80) ∧
    (color_usage_percent p = Color.red ↔ 80 ≤ p) ∧
    color_usage_percent 60 = Color.yellow ∧
    color_usage_percent 80 = Color.red := by
  refine ⟨?_, ?_, ?_, by decide, by decide⟩ <;>
    (unfold color_usage_percent; split_ifs with h1 h2 <;> simp_all) <;> linarith

/-- Claim C7: for every temperature t, the temperature color classifier
returns green iff t < 60, yellow iff 60 <= t < 70, and red iff t >= 70;
the boundaries 60 and 70 go to the upper class, and the breakpoints differ
from the usage classifier's (at t = 70 the temperature classifier is
already red while the usage classifier is still yellow). -/
theorem temp_color_classification (t : ℚ) :
    (color_cpu_temp t = Color.green ↔ t < 60) ∧
    (color_cpu_temp t = Color.yellow ↔ 60 ≤ t ∧ t < 70) ∧
    (color_cpu_temp t = Color.red ↔ 70 ≤ t) ∧
    color_cpu_temp 60 = Color.yellow ∧
    color_cpu_temp 70 = Color.red ∧
    color_cpu_temp 70 ≠ color_usage_percent 70 := by
  refine ⟨?_, ?_, ?_, by decide, by decide, by decide⟩ <;>
    (unfold color_cpu_temp; split_ifs with h1 h2 <;> simp_all) <;> linarith

/-- Claim C8: for every boot time B and current time T, the uptime string
reports whole elapsed hours plus remaining whole minutes with floor
(truncation) semantics on the seconds, formatted as
`<h> hrs, <m> mins`; the fractional seconds are truncated, never rounded
up. -/
theorem uptime_truncates (B T : ℚ) (h m : ℕ) (sec : ℚ)
    (hm : m < 60) (h0 : 0 ≤ sec) (h60 : sec < 60)
    (hdur : T - B = 3600 * h + 60 * m + sec) :
    uptimeStr (T - B) = toString (h : ℤ) ++ " hrs, " ++ toString (m : ℤ) ++ " mins" := by
  have hm59 : (m : ℚ) ≤ 59 := by
    have : m ≤ 59 := Nat.lt_succ_iff.mp hm
    exact_mod_cast this
  have hfr1 : (60 * (m : ℚ) + sec) / 3600 < 1 := by
    rw [div_lt_one (by norm_num)]
    linarith
  have hsf1 : sec / 60 < 1 := by
    rw [div_lt_one (by norm_num)]
    linarith
  have hh : uptimeHours (T - B) = (h : ℤ) := by
    unfold uptimeHours
    rw [hdur]
    have e : (3600 * (h : ℚ) + 60 * m + sec) / 3600
        = ((h : ℤ) : ℚ) + (60 * m + sec) / 3600 := by
      push_cast
      field_simp
      ring
    rw [e, Int.floor_int_add]
    have hz : ⌊(60 * (m : ℚ) + sec) / 3600⌋ = 0 := by
      rw [Int.floor_eq_zero_iff]
      exact ⟨by positivity, hfr1⟩
    rw [hz, add_zero]
  have hmm : uptimeMinutes (T - B) = (m : ℤ) := by
    unfold uptimeMinutes
    rw [hh, hdur]
    have e : (3600 * (h : ℚ) + 60 * m + sec - 3600 * ((h : ℤ) : ℚ)) / 60
        = ((m : ℤ) : ℚ) + sec / 60 := by
      push_cast
      field_simp
      ring
    rw [e, Int.floor_int_add]
    have hz : ⌊sec / 60⌋ = 0 := by
      rw [Int.floor_eq_zero_iff]
      exact ⟨by positivity, hsf1⟩
    rw [hz, add_zero]
  unfold uptimeStr
  rw [hh, hmm]

/-- Witness for C8: a boot-to-now difference of 3 hours, 45 minutes and
10 seconds prints exactly "3 hrs, 45 mins". -/
theorem uptime_truncates_witness : uptimeStr (13510 - 0) = "3 hrs, 45 mins" := by
  rw [uptime_truncates 0 13510 3 45 10 (by norm_num) (by norm_num) (by norm_num) (by norm_num)]
  rfl

/-- A sensor without a truthy reading is skipped by the probe loop. -/
theorem firstSensor_cons_none (m : List (String × List ℚ)) (x : String)
    (rest : List String) (hx : sensorHasReading m x = false) :
    firstSensor (x :: rest) m = firstSensor rest m := by
  unfold sensorHasReading at hx
  cases hl : assocLookup m x with
  | none =>
    rw [firstSensor]
    simp [hl]
  | some l =>
    cases l with
    | nil =>
      rw [firstSensor]
      simp [hl]
    | cons a as =>
      rw [hl] at hx
      simp at hx

/-- A prefix of sensors without truthy readings is skipped entirely. -/
theorem firstSensor_skip (m : List (String × List ℚ)) (L1 : List String)
    (h1 : ∀ x ∈ L1, sensorHasReading m x = false) (L2 : List String) :
    firstSensor (L1 ++ L2) m = firstSensor L2 m := by
  induction L1 with
  | nil => rfl
  | cons x rest ih =>
    rw [List.cons_append, firstSensor_cons_none m x _ (h1 x (by simp))]
    exact ih (fun y hy => h1 y (by simp [hy]))

/-- The probe loop returns the head reading of the first truthy sensor. -/
theorem firstSensor_head (m : List (String × List ℚ)) (sname : String)
    (L2 : List String) (t : ℚ) (ts : List ℚ)
    (hs : assocLookup m sname = some (t :: ts)) :
    firstSensor (sname :: L2) m = some t := by
  unfold firstSensor
  simp [hs]

/-- Splitting `HasGlyph` over an appended display. -/
theorem hasGlyph_append (d1 d2 : List (Lab × Val)) (g : Glyph) :
    HasGlyph (d1 ++ d2) g ↔ HasGlyph d1 g ∨ HasGlyph d2 g := by
  unfold HasGlyph
  constructor
  · rintro ⟨p, hp, h⟩
    rcases List.mem_append.mp hp with h1 | h1
    · exact Or.inl ⟨p, h1, h⟩
    · exact Or.inr ⟨p, h1, h⟩
  · rintro (⟨p, hp, h⟩ | ⟨p, hp, h⟩)
    · exact ⟨p, List.mem_append_left _ hp, h⟩
    · exact ⟨p, List.mem_append_right _ hp, h⟩

/-- `HasGlyph` over an optional display segment. -/
theorem hasGlyph_optEntry {β : Type} (o : Option β) (f : β → Lab × Val) (g : Glyph) :
    HasGlyph (optEntry o f) g ↔ ∃ x, o = some x ∧ labGlyph (f x).1 = some g := by
  cases o <;> simp [optEntry, HasGlyph]

/-- The battery logo is always one of the two battery glyphs. -/
theorem batteryLogo_cases (s : RichState) :
    batteryLogoOf s = Glyph.nfBatCharge ∨ batteryLogoOf s = Glyph.nfBatNorm := by
  unfold batteryLogoOf
  cases truthyOB (pluggedOf s) <;> simp

/-- The battery string is present exactly when a battery exists. -/
theorem batteryStr_isSome (s : RichState) :
    (batteryStrOf s).isSome = s.battery.isSome := by
  unfold batteryStrOf
  cases s.battery with
  | none => rfl
  | some b => cases b; rfl

/-- Characterization of the glyphs labeling the rich insertion sequence:
the four identity/OS/CPU entries and the session, uptime, memory, disk
and color-line entries are always present; the temperature, battery and
IP entries are present exactly when their collector result is present. -/
theorem hasGlyph_richEntries (s : RichState) (g : Glyph) :
    HasGlyph (richEntries s) g ↔
      (Glyph.nfUser = g ∨ (osLogoOf s.osType).glyph = g ∨ Glyph.nfCpu = g ∨
       ((get_cpu_temperature s.sensors).isSome = true ∧ Glyph.nfTemp = g) ∨
       ((batteryStrOf s).isSome = true ∧ batteryLogoOf s = g) ∨
       Glyph.nfScreen = g ∨ Glyph.nfClock = g ∨ Glyph.nfRam = g ∨ Glyph.nfDisk = g ∨
       ((privateIpOf s).isSome = true ∧ Glyph.nfIpA = g) ∨
       ((publicIpOf s).isSome = true ∧ Glyph.nfIpB = g)) := by
  unfold richEntries
  cases hT : get_cpu_temperature s.sensors <;>
  cases hB : batteryStrOf s <;>
  cases hP : privateIpOf s <;>
  cases hQ : publicIpOf s <;>
    simp [HasGlyph, labGlyph, optEntry]

/-- The minimal variant's dict, evaluated under Python dict semantics:
the tenth inserted pair shares its key with the second, so the CPU-name
value is overwritten in place by the CPU-load string and only nine
entries remain. -/
theorem fetchDict_eq (s : FetchState) (t : ℚ) (lip pip : Option String) :
    dictOfList (fetchEntries s t lip pip) =
      [(.col ⟨.nfUser, .blue⟩, .vcol ⟨s.username ++ "@" ++ s.hostname, .green⟩),
       (.col ⟨.nfCpu, .blue⟩, .vstr (pyFloatRepr s.cpuPercent ++ "%")),
       (.col ⟨.nfTemp, .red⟩, .vstr (pyFloatRepr t ++ (Char.ofNat 0xF0504).toString)),
       (.col ⟨.nfScreen, .blue⟩, optVal (pyOr s.desktopSession s.xdgSessionType)),
       (.col ⟨.nfClock, .yellow⟩, .vstr (uptimeStr s.uptimeSeconds)),
       (.col ⟨.nfRam, .red⟩, .vstr (usageStr s.ramUsed s.ramTotal s.ramPercent)),
       (.col ⟨.nfDisk, .magenta⟩, .vstr (usageStr s.diskUsed s.diskTotal s.diskPercent)),
       (.col ⟨.nfIpA, .yellow⟩, optVal lip),
       (.col ⟨.nfIpA, .green⟩, optVal pip)] := by
  rfl

/-- Claim C4 (code bug): the spec requires the UDP socket acquired for
route selection to be released on every exit path, but the source calls
`s.close()` only on the straight-line path; both `except` handlers return
`None` without closing the socket.  Evaluated at a failing connect, a
failing getsockname, and the success path: on both error exits the
collector returns its unavailable result with the socket still open. -/
theorem private_ip_socket_leak :
    runPrivateIp ⟨some "Network is unreachable", .ok "192.168.1.7"⟩ = (none, false) ∧
    runPrivateIp ⟨none, .error "getsockname failed"⟩ = (none, false) ∧
    runPrivateIp ⟨none, .ok "192.168.1.7"⟩ = (some "192.168.1.7", true) :=
  ⟨rfl, rfl, rfl⟩

/-- Claim C3 (amended): the rich variant's temperature collector probes
the sensor identifiers in exactly the priority order "coretemp",
"k10temp", "cpu-thermal", "lm_sensors", "asus-nb", "lm75", "acpitz" and
returns the head reading of the first sensor that has a truthy (nonempty)
reading list; it returns `None` without raising when no listed sensor has
one, and in the rich variant a `None` temperature only omits the
temperature entry while every other entry of the report is still
assembled.  The minimal variant, by contrast, indexes `coretemp` directly
and aborts the whole report when it is absent (see the counterexample). -/
theorem temp_probe_priority :
    get_cpu_temperature none = none ∧
    (∀ m : List (String × List ℚ),
      (∀ x ∈ sensorNames, sensorHasReading m x = false) →
      get_cpu_temperature (some m) = none) ∧
    (∀ (m : List (String × List ℚ)) (L1 L2 : List String) (sname : String)
      (t : ℚ) (ts : List ℚ), sensorNames = L1 ++ sname :: L2 →
      (∀ x ∈ L1, sensorHasReading m x = false) →
      assocLookup m sname = some (t :: ts) →
      get_cpu_temperature (some m) = some t) ∧
    (∀ s : RichState, get_cpu_temperature s.sensors = none →
      ¬ HasGlyph (richDisplay s) Glyph.nfTemp ∧
      HasGlyph (richDisplay s) Glyph.nfUser ∧
      HasGlyph (richDisplay s) Glyph.nfCpu ∧
      HasGlyph (richDisplay s) Glyph.nfScreen ∧
      HasGlyph (richDisplay s) Glyph.nfClock ∧
      HasGlyph (richDisplay s) Glyph.nfRam ∧
      HasGlyph (richDisplay s) Glyph.nfDisk ∧
      (Lab.plain " ", Val.vstr dynamic_color_line) ∈ richDisplay s) := by
  refine ⟨rfl, ?_, ?_, ?_⟩
  · intro m hm
    show firstSensor sensorNames m = none
    have h := firstSensor_skip m sensorNames hm []
    rw [List.append_nil] at h
    rw [h]
    rfl
  · intro m L1 L2 sname t ts hsplit h1 hs
    show firstSensor sensorNames m = some t
    rw [hsplit, firstSensor_skip m L1 h1 (sname :: L2), firstSensor_head m sname L2 t ts hs]
  · intro s hT
    rw [richDisplay_eq]
    refine ⟨?_, ?_, ?_, ?_, ?_, ?_, ?_, ?_⟩
    · rw [hasGlyph_richEntries]
      have hos := osLogo_glyph_ne s.osType Glyph.nfTemp (by decide)
      rcases batteryLogo_cases s with hb | hb <;> simp [hT, hb, hos]
    · rw [hasGlyph_richEntries]; simp
    · rw [hasGlyph_richEntries]; simp
    · rw [hasGlyph_richEntries]; simp
    · rw [hasGlyph_richEntries]; simp
    · rw [hasGlyph_richEntries]; simp
    · rw [hasGlyph_richEntries]; simp
    · unfold richEntries
      simp

/-- Witness for C3: the probe skips "asus-nb" (present but with an empty,
hence falsy, reading list) and returns the "lm75" reading rather than the
lower-priority "acpitz" one; a map with none of the listed sensors gives
`None`; and on a host state whose collector returns `None` the rich
report still contains the memory entry while omitting the temperature
entry. -/
theorem temp_probe_priority_witness :
    get_cpu_temperature (some [("asus-nb", []), ("lm75", [62]), ("acpitz", [47])]) = some 62 ∧
    get_cpu_temperature (some [("nvme", [38])]) = none ∧
    ¬ HasGlyph (richDisplay stateFailures) Glyph.nfTemp ∧
    HasGlyph (richDisplay stateFailures) Glyph.nfRam := by
  obtain ⟨h1, h2, h3, h4⟩ := temp_probe_priority
  refine ⟨?_, ?_, ?_, ?_⟩
  · exact h3 _ ["coretemp", "k10temp", "cpu-thermal", "lm_sensors", "asus-nb"] ["acpitz"]
      "lm75" 62 [] (by decide) (by decide) (by decide)
  · exact h2 _ (by decide)
  · exact (h4 stateFailures (by decide)).1
  · exact (h4 stateFailures (by decide)).2.2.2.2.2.1

/-- Counterexample for C3: on a minimal-variant host whose sensor map
lacks "coretemp" (it has only "k10temp"), the direct index on `fetch.py`
line 61 raises `KeyError` and the whole report is abandoned: no network
operation runs and nothing is printed, so the absence of that temperature
reading does prevent the rest of the report. -/
theorem minimal_report_dies_without_coretemp :
    fetchRun fetchStateNoCoretemp = ([], .error "KeyError: coretemp") ∧
    fetchOutput fetchStateNoCoretemp = .error "KeyError: coretemp" := by
  constructor <;> rfl

/-- Claim C5 (amended): the public-IP collector returns `None` instead of
raising on every transport error, on every 400-599 error status (the
range `raise_for_status` treats as an error), on every malformed JSON
body, and on a body lacking the "ip" field; whenever the collector yields
`None` the rich variant omits the public-IP entry while every other
entry is still assembled, and the minimal variant (when its temperature
read succeeds) renders the entry with the `None` placeholder and still
prints every other entry.  A delivered non-2xx status outside 400-599
(such as 304) with a well-formed body is, however, returned as a success
value (see the counterexample). -/
theorem public_ip_error_handling :
    (∀ msg : String, get_public_ip (.transportError msg) = none) ∧
    (∀ (st : ℕ) (body : JsonBody), 400 ≤ st → st < 600 →
      get_public_ip (.response st body) = none) ∧
    (∀ st : ℕ, get_public_ip (.response st .malformed) = none) ∧
    (∀ (st : ℕ) (fields : List (String × String)), assocLookup fields "ip" = none →
      get_public_ip (.response st (.obj fields)) = none) ∧
    (∀ s : RichState, get_public_ip s.publicOutcome = none →
      ¬ HasGlyph (richDisplay s) Glyph.nfIpB ∧
      HasGlyph (richDisplay s) Glyph.nfUser ∧
      HasGlyph (richDisplay s) Glyph.nfCpu ∧
      HasGlyph (richDisplay s) Glyph.nfScreen ∧
      HasGlyph (richDisplay s) Glyph.nfClock ∧
      HasGlyph (richDisplay s) Glyph.nfRam ∧
      HasGlyph (richDisplay s) Glyph.nfDisk ∧
      (Lab.plain " ", Val.vstr dynamic_color_line) ∈ richDisplay s) ∧
    (∀ (fs : FetchState) (t : ℚ), fetchTemp fs.sensors = .ok t →
      get_public_ip fs.publicOutcome = none →
      (Lab.col ⟨.nfIpA, .green⟩, Val.vnone) ∈ okReport (fetchRun fs).2 ∧
      "  " ++ renderLab (Lab.col ⟨.nfIpA, .green⟩) ++ "  " ++ "None" ∈
        okLines (fetchOutput fs)) := by
  refine ⟨fun msg => rfl, ?_, ?_, ?_, ?_, ?_⟩
  · intro st body h4 h6
    simp only [get_public_ip]
    rw [if_pos ⟨h4, h6⟩]
  · intro st
    simp only [get_public_ip]
    split_ifs <;> rfl
  · intro st fields hf
    simp only [get_public_ip]
    split_ifs with h
    · rfl
    · rw [hf]
  · intro s h
    have hpub : publicIpOf s = none := by
      unfold publicIpOf
      cases s.showPublicIp <;> simp [h]
    rw [richDisplay_eq]
    refine ⟨?_, ?_, ?_, ?_, ?_, ?_, ?_, ?_⟩
    · rw [hasGlyph_richEntries]
      have hos := osLogo_glyph_ne s.osType Glyph.nfIpB (by decide)
      rcases batteryLogo_cases s with hb | hb <;> simp [hpub, hb, hos]
    · rw [hasGlyph_richEntries]; simp
    · rw [hasGlyph_richEntries]; simp
    · rw [hasGlyph_richEntries]; simp
    · rw [hasGlyph_richEntries]; simp
    · rw [hasGlyph_richEntries]; simp
    · rw [hasGlyph_richEntries]; simp
    · unfold richEntries
      simp
  · intro fs t hT hpub
    have hrun : fetchRun fs = ([NetEffect.udpConnect, NetEffect.httpGet],
        .ok (dictOfList (fetchEntries fs t (runPrivateIp fs.localIpWorld).1
          (get_public_ip fs.publicOutcome)))) := by
      unfold fetchRun
      rw [hT]
    constructor
    · rw [hrun]
      simp only [okReport]
      rw [fetchDict_eq, hpub]
      simp [optVal]
    · unfold fetchOutput
      rw [hrun]
      simp only [okLines, Except.map]
      rw [fetchDict_eq, hpub]
      simp [optVal, pyLine, renderVal]

/-- Witness for C5: concrete failing outcomes all yield `None`; on the
failing host state the rich display omits the public-IP entry, and on the
minimal-variant host state with a transport error the report carries the
`None` placeholder for the public address. -/
theorem public_ip_error_handling_witness :
    get_public_ip (.transportError "boom") = none ∧
    get_public_ip (.response 503 (.obj [("ip", "1.2.3.4")])) = none ∧
    get_public_ip (.response 200 .malformed) = none ∧
    get_public_ip (.response 200 (.obj [("message", "hi")])) = none ∧
    ¬ HasGlyph (richDisplay stateFailures) Glyph.nfIpB ∧
    (Lab.col ⟨.nfIpA, .green⟩, Val.vnone) ∈ okReport (fetchRun fetchStateA).2 := by
  obtain ⟨h1, h2, h3, h4, h5, h6⟩ := public_ip_error_handling
  exact ⟨h1 "boom", h2 503 _ (by norm_num) (by norm_num), h3 200, h4 200 _ (by decide),
    (h5 stateFailures (by decide)).1, (h6 fetchStateA 43 rfl rfl).1⟩

/-- Counterexample for C5: a delivered 304 response is non-2xx, yet
`raise_for_status` does not raise for it, so with a well-formed body the
collector returns the value instead of the unavailable `None`. -/
theorem public_ip_non2xx_returned :
    get_public_ip (.response 304 (.obj [("ip", "203.0.113.9")])) = some "203.0.113.9" := by
  rfl

/-- Claim C1 (amended): in the rich variant the temperature, battery,
private-IP and public-IP entries appear in the display exactly when their
collector result is present, but the session-manager entry is always
inserted, holding the raw lookup result — so when both DESKTOP_SESSION
and XDG_SESSION_TYPE are unset the entry is rendered with a label and the
missing value (see the counterexample; the minimal variant likewise
always renders its IP entries, with `None` placeholders). -/
theorem display_presence_iff (s : RichState) :
    (Lab.col ⟨Glyph.nfScreen, Color.red⟩, optVal (wmOf s)) ∈ richDisplay s ∧
    (HasGlyph (richDisplay s) Glyph.nfTemp ↔ (get_cpu_temperature s.sensors).isSome = true) ∧
    ((HasGlyph (richDisplay s) Glyph.nfBatCharge ∨ HasGlyph (richDisplay s) Glyph.nfBatNorm)
      ↔ s.battery.isSome = true) ∧
    (HasGlyph (richDisplay s) Glyph.nfIpA ↔ (privateIpOf s).isSome = true) ∧
    (HasGlyph (richDisplay s) Glyph.nfIpB ↔ (publicIpOf s).isSome = true) := by
  rw [richDisplay_eq]
  have hosT := osLogo_glyph_ne s.osType Glyph.nfTemp (by decide)
  have hosBC := osLogo_glyph_ne s.osType Glyph.nfBatCharge (by decide)
  have hosBN := osLogo_glyph_ne s.osType Glyph.nfBatNorm (by decide)
  have hosA := osLogo_glyph_ne s.osType Glyph.nfIpA (by decide)
  have hosB := osLogo_glyph_ne s.osType Glyph.nfIpB (by decide)
  refine ⟨?_, ?_, ?_, ?_, ?_⟩
  · unfold richEntries
    simp
  · rw [hasGlyph_richEntries]
    rcases batteryLogo_cases s with hb | hb <;> simp [hb, hosT]
  · rw [hasGlyph_richEntries, hasGlyph_richEntries, ← batteryStr_isSome]
    rcases batteryLogo_cases s with hb | hb <;> simp [hb, hosBC, hosBN]
  · rw [hasGlyph_richEntries]
    rcases batteryLogo_cases s with hb | hb <;> simp [hb, hosA]
  · rw [hasGlyph_richEntries]
    rcases batteryLogo_cases s with hb | hb <;> simp [hb, hosB]

/-- Counterexample for C1: with both session environment variables unset
the session-manager metric is absent, yet the rich display still contains
its entry, labeled with the session glyph and holding the missing value,
and the printed report renders that label with the "None" placeholder. -/
theorem wm_entry_present_when_absent :
    wmOf stateNoWm = none ∧
    richDisplay stateNoWm = dispNoWm ∧
    (Lab.col ⟨Glyph.nfScreen, Color.red⟩, Val.vnone) ∈ dispNoWm ∧
    "  " ++ renderLab (Lab.col ⟨Glyph.nfScreen, Color.red⟩) ++ "  " ++ "None" ∈
      richOutput stateNoWm := by
  refine ⟨rfl, by with_unfolding_all rfl, by simp [dispNoWm], ?_⟩
  have h : richOutput stateNoWm = "" :: (dispNoWm.map pyLine ++ [""]) := by
    with_unfolding_all rfl
  rw [h]
  simp [dispNoWm, pyLine, renderVal]

/-- Claim C2 (amended): in the rich variant, when neither
`--show-public-ip` nor `--show-private-ip` is supplied (both default to
false), no IP network operation is performed and no IP entry appears in
the display.  The minimal variant has no flags at all and performs both
network operations on every run that reaches them (see the
counterexample). -/
theorem no_flags_no_network (s : RichState)
    (h1 : s.showPublicIp = false) (h2 : s.showPrivateIp = false) :
    richEffects s = [] ∧
    ¬ HasGlyph (richDisplay s) Glyph.nfIpA ∧
    ¬ HasGlyph (richDisplay s) Glyph.nfIpB := by
  have hpriv : privateIpOf s = none := by
    unfold privateIpOf
    rw [h2]
    rfl
  have hpub : publicIpOf s = none := by
    unfold publicIpOf
    rw [h1]
    rfl
  refine ⟨?_, ?_, ?_⟩
  · unfold richEffects
    rw [h1, h2]
    rfl
  · rw [richDisplay_eq, hasGlyph_richEntries]
    have hos := osLogo_glyph_ne s.osType Glyph.nfIpA (by decide)
    rcases batteryLogo_cases s with hb | hb <;> simp [hpriv, hpub, hb, hos]
  · rw [richDisplay_eq, hasGlyph_richEntries]
    have hos := osLogo_glyph_ne s.osType Glyph.nfIpB (by decide)
    rcases batteryLogo_cases s with hb | hb <;> simp [hpriv, hpub, hb, hos]

/-- Witness for C2: on the concrete flagless host state the rich variant
performs no network operation and shows no IP entry. -/
theorem no_flags_no_network_witness :
    richEffects stateNoWm = [] ∧
    ¬ HasGlyph (richDisplay stateNoWm) Glyph.nfIpA ∧
    ¬ HasGlyph (richDisplay stateNoWm) Glyph.nfIpB :=
  no_flags_no_network stateNoWm rfl rfl

/-- Counterexample for C2: the minimal variant takes no flags, yet a run
of it performs both the UDP socket operation and the HTTP request, and
its report contains both IP entries. -/
theorem minimal_always_probes_network :
    (fetchRun fetchStateA).1 = [NetEffect.udpConnect, NetEffect.httpGet] ∧
    (fetchRun fetchStateA).2 = Except.ok reportFetchA ∧
    Lab.col ⟨Glyph.nfIpA, Color.yellow⟩ ∈ keysOf reportFetchA ∧
    Lab.col ⟨Glyph.nfIpA, Color.green⟩ ∈ keysOf reportFetchA := by
  exact ⟨rfl, by with_unfolding_all rfl, by simp [reportFetchA, keysOf],
    by simp [reportFetchA, keysOf]⟩

/-- Claim C9 (amended): the OS icon lookup is an exact, case-sensitive
dict lookup — a stored name returns its table value, any other string
(including a case variant of a stored name) returns the fallback
`colored("", "yellow")` — and the rich variant's report always contains
the OS entry.  The minimal variant's report, however, contains no OS
entry at all: its key list is a fixed nine-element list in which no
possible `get_os_logo` output occurs (see the counterexample). -/
theorem os_logo_lookup_and_entry :
    (∀ (name : String) (c : Colored), assocLookup logo_dict name = some c →
      get_os_logo name = c) ∧
    (∀ name : String, assocLookup logo_dict name = none → get_os_logo name = fallbackLogo) ∧
    get_os_logo "arch linux" = fallbackLogo ∧
    get_os_logo "Arch Linux" = ⟨.lgArch, .blue⟩ ∧
    (∀ s : RichState,
      (Lab.col (osLogoOf s.osType), Val.vstr (osName s.osType)) ∈ richDisplay s) ∧
    (∀ (fs : FetchState) (d : List (Lab × Val)), (fetchRun fs).2 = .ok d →
      keysOf d = [Lab.col ⟨.nfUser, .blue⟩, Lab.col ⟨.nfCpu, .blue⟩,
        Lab.col ⟨.nfTemp, .red⟩, Lab.col ⟨.nfScreen, .blue⟩, Lab.col ⟨.nfClock, .yellow⟩,
        Lab.col ⟨.nfRam, .red⟩, Lab.col ⟨.nfDisk, .magenta⟩, Lab.col ⟨.nfIpA, .yellow⟩,
        Lab.col ⟨.nfIpA, .green⟩]) ∧
    (∀ c ∈ logoValues,
      (Lab.col c : Lab) ∉ [Lab.col ⟨.nfUser, .blue⟩, Lab.col ⟨.nfCpu, .blue⟩,
        Lab.col ⟨.nfTemp, .red⟩, Lab.col ⟨.nfScreen, .blue⟩, Lab.col ⟨.nfClock, .yellow⟩,
        Lab.col ⟨.nfRam, .red⟩, Lab.col ⟨.nfDisk, .magenta⟩, Lab.col ⟨.nfIpA, .yellow⟩,
        Lab.col ⟨.nfIpA, .green⟩]) := by
  refine ⟨?_, ?_, by decide, by decide, ?_, ?_, by decide⟩
  · intro name c h
    unfold get_os_logo
    rw [h]
    rfl
  · intro name h
    unfold get_os_logo
    rw [h]
    rfl
  · intro s
    rw [richDisplay_eq]
    unfold richEntries
    simp
  · intro fs d h
    rcases hT : fetchTemp fs.sensors with e | t
    · rw [fetchRun, hT] at h
      simp at h
    · rw [fetchRun, hT] at h
      simp only [Except.ok.injEq] at h
      subst h
      rw [fetchDict_eq]
      rfl

/-- Witness for C9: a stored name maps to its table value, a case
variant of it falls back, the rich display of the concrete state carries
its OS entry, and the concrete minimal report's key list is the fixed
nine-element list. -/
theorem os_logo_lookup_witness :
    get_os_logo "NixOS" = ⟨.lgNixos, .blue⟩ ∧
    get_os_logo "nixos" = fallbackLogo ∧
    (Lab.col (osLogoOf stateNoWm.osType), Val.vstr (osName stateNoWm.osType)) ∈
      richDisplay stateNoWm ∧
    keysOf reportFetchA = [Lab.col ⟨.nfUser, .blue⟩, Lab.col ⟨.nfCpu, .blue⟩,
      Lab.col ⟨.nfTemp, .red⟩, Lab.col ⟨.nfScreen, .blue⟩, Lab.col ⟨.nfClock, .yellow⟩,
      Lab.col ⟨.nfRam, .red⟩, Lab.col ⟨.nfDisk, .magenta⟩, Lab.col ⟨.nfIpA, .yellow⟩,
      Lab.col ⟨.nfIpA, .green⟩] := by
  obtain ⟨h1, h2, h3, h4, h5, h6, h7⟩ := os_logo_lookup_and_entry
  exact ⟨h1 "NixOS" _ (by decide), h2 "nixos" (by decide), h5 stateNoWm,
    h6 fetchStateA reportFetchA (by with_unfolding_all rfl)⟩

/-- Counterexample for C9: the concrete minimal-variant report contains
no entry labeled with any possible OS logo — the OS entry is missing from
that variant's report. -/
theorem minimal_report_lacks_os_entry :
    (fetchRun fetchStateA).2 = Except.ok reportFetchA ∧
    logoValues.all
      (fun c => (keysOf reportFetchA).all (fun k => decide (k ≠ Lab.col c))) = true := by
  exact ⟨by with_unfolding_all rfl, by decide⟩

/-- Claim C10 (amended): the rich variant prints exactly one blank line,
then the entries in the fixed assembly order — identity, OS, CPU name,
CPU load, temperature (if present), battery (if present), session
manager, uptime, memory, disk, private IP (if present), public IP (if
present), decorative color line — each as `"  <label>  <value>"`, then a
trailing blank line, with all labels pairwise distinct so nothing is
merged, reordered or deduplicated.  The minimal variant deviates: it has
no OS entry, no battery entry and no color line, prints no trailing
blank line, and its CPU-name entry is deduplicated away because it
shares its decorated label with the CPU-load entry (see the
counterexample). -/
theorem rich_output_order (s : RichState) :
    richOutput s =
      "" ::
        ((([(.col ⟨.nfUser, .green⟩, .vcol ⟨s.username ++ "@" ++ s.hostname, .green⟩),
           (.col (osLogoOf s.osType), .vstr (osName s.osType)),
           (.col ⟨.nfCpu, .blue⟩, .vstr s.cpuBrand),
           (.col ⟨.nfCpu, color_usage_percent s.cpuPercent⟩,
             .vstr (pyFloatRepr s.cpuPercent ++ "%"))] : List (Lab × Val))
          ++ optEntry (get_cpu_temperature s.sensors) (fun t =>
              (.col ⟨.nfTemp, color_cpu_temp t⟩,
               .vstr (pyFloatRepr t ++ (Char.ofNat 0xF0504).toString)))
          ++ optEntry (batteryStrOf s) (fun b => (.col ⟨batteryLogoOf s, .green⟩, .vstr b))
          ++ [(.col ⟨.nfScreen, .red⟩, optVal (wmOf s)),
              (.col ⟨.nfClock, .magenta⟩, .vstr (uptimeStr s.uptimeSeconds)),
              (.col ⟨.nfRam, color_usage_percent s.ramPercent⟩,
                .vstr (usageStr s.ramUsed s.ramTotal s.ramPercent)),
              (.col ⟨.nfDisk, color_usage_percent s.diskPercent⟩,
                .vstr (usageStr s.diskUsed s.diskTotal s.diskPercent))]
          ++ optEntry (privateIpOf s) (fun ip => (.col ⟨.nfIpA, .green⟩, .vstr ip))
          ++ optEntry (publicIpOf s) (fun ip => (.col ⟨.nfIpB, .green⟩, .vstr ip))
          ++ [(.plain " ", .vstr dynamic_color_line)] : List (Lab × Val)).map
          (fun p => "  " ++ renderLab p.1 ++ "  " ++ renderVal p.2) ++ [""]) ∧
    (keysOf (richDisplay s)).Pairwise (fun a b => a ≠ b) := by
  constructor
  · unfold richOutput
    rw [richDisplay_eq]
    rfl
  · rw [richDisplay_eq]
    unfold keysOf
    rw [List.pairwise_map]
    exact richKeys_pairwise s

/-- Counterexample for C10: on the concrete minimal-variant state the
ten inserted pairs survive only as nine entries — the CPU-name value
"TestCPU" is overwritten in place by the CPU-load string "12.5%" because
the two share the identical decorated label — and the printed report has
a leading blank line but no trailing one. -/
theorem minimal_report_dedupes_cpu_name :
    (fetchRun fetchStateA).2 = Except.ok reportFetchA ∧
    (fetchEntries fetchStateA 43 (some "192.168.0.2") none).length = 10 ∧
    reportFetchA.length = 9 ∧
    (Lab.col ⟨Glyph.nfCpu, Color.blue⟩, Val.vstr "12.5%") ∈ reportFetchA ∧
    reportFetchA.all (fun p => decide (p.2 ≠ Val.vstr "TestCPU")) = true ∧
    fetchOutput fetchStateA = Except.ok ("" :: reportFetchA.map pyLine) ∧
    (reportFetchA.map pyLine).getLast? ≠ some "" := by
  refine ⟨by with_unfolding_all rfl, rfl, rfl, by simp [reportFetchA], by decide,
    by with_unfolding_all rfl, by decide⟩
